import Mathlib

/-!
Verification of the docs.rs metrics registry (`src/metrics/mod.rs`).

The Rust module declares a fixed schema of metrics through the `metrics!`
macro and exposes `Metrics::gather`, which refreshes the pool, queue and
(on Linux) process-introspection gauges and asks the prometheus registry
to serialize every registered metric.  The shallow embedding below
translates `Metrics::gather` and `Metrics::gather_system_performance`
directly from the source; the parts of the program that are not in the
visible source (the `macros` module generating registration code, and the
prometheus collection backend) are modelled from the specification and
carry a `Modelled from the spec:` note in their doc comment.
-/

namespace DocsrsMetrics

/-- Error value carried by Rust `failure::Error`; only an identifying
message is modelled. -/
structure Error where
  msg : String
deriving DecidableEq, Repr

/-- Rust `Result<α, Error>`. -/
inductive RustResult (α : Type) where
  | ok (v : α)
  | error (e : Error)
deriving DecidableEq, Repr

/-- Whether a `RustResult` is the `Ok` variant. -/
def RustResult.isOk {α : Type} : RustResult α → Bool
  | .ok _ => true
  | .error _ => false

/-- Rust `x as i64` applied to a `usize` (64-bit): wrap modulo `2 ^ 64`
and reinterpret as two's-complement signed. -/
def as_i64 (n : Nat) : Int :=
  let m : Nat := n % 2 ^ 64
  if m < 2 ^ 63 then (m : Int) else (m : Int) - 2 ^ 64

/-- The mutable state of every live metric declared in the `metrics!`
block of `src/metrics/mod.rs`, one field per declared metric, in
declaration order.  Gauges are `i64` values (`Int`); counters are
modelled from the spec as cumulative `Nat` totals; vector metrics are
modelled from the spec as label-to-series association lists (for the
histogram vectors only the per-label observation count is modelled). -/
structure Metrics where
  queued_crates_count : Int
  prioritized_crates_count : Int
  failed_crates_count : Int
  idle_db_connections : Int
  used_db_connections : Int
  max_db_connections : Int
  failed_db_connections : Nat
  open_file_descriptors : Int
  running_threads : Int
  routes_visited : List (String × Nat)
  response_time : List (String × Nat)
  rustdoc_rendering_times : List (String × Nat)
  total_builds : Nat
  successful_builds : Nat
  failed_builds : Nat
  non_library_builds : Nat
  uploaded_files_total : Nat
  html_rewrite_ooms : Nat
deriving DecidableEq, Repr

/-- The connection-pool accessor (`crate::db::Pool`): three infallible
reads of current pool state. -/
structure Pool where
  idle_connections : Nat
  used_connections : Nat
  max_size : Nat
deriving DecidableEq, Repr

/-- The job-queue accessor (`crate::BuildQueue`): the result each of the
three fallible count reads returns during this `gather` call. -/
structure BuildQueue where
  pending_count : RustResult Nat
  prioritized_count : RustResult Nat
  failed_count : RustResult Nat
deriving DecidableEq, Repr

/-- The fields of `procfs::process::Stat` used by the module. -/
structure Stat where
  num_threads : Int
deriving DecidableEq, Repr

/-- A `procfs::process::Process` handle: the results of the `fd()` and
`stat()` reads performed during this `gather` call. -/
structure Process where
  fd : RustResult (List Nat)
  stat : RustResult Stat
deriving DecidableEq, Repr

/-- The procfs environment: the result of `Process::myself()`. -/
structure ProcFS where
  myself : RustResult Process
deriving DecidableEq, Repr

/-- Kinds of metrics declared in the schema. -/
inductive MetricKind where
  | intGauge
  | intCounter
  | intCounterVec
  | histogramVec
deriving DecidableEq, Repr

/-- One static metric descriptor: declared name, help text (the doc
comment), kind, optional label dimension, and whether the declaration is
gated behind `cfg(target_os = "linux")`. -/
structure MetricDescriptor where
  name : String
  help : String
  kind : MetricKind
  label : Option String
  linux_only : Bool
deriving DecidableEq, Repr

/-- The complete metric schema of the `metrics!` block, in declaration
order, with the doc comments of the source as help text. -/
def schema : List MetricDescriptor :=
  [ ⟨"queued_crates_count", "Number of crates in the build queue",
      .intGauge, none, false⟩,
    ⟨"prioritized_crates_count",
      "Number of crates in the build queue that have a positive priority",
      .intGauge, none, false⟩,
    ⟨"failed_crates_count", "Number of crates that failed to build",
      .intGauge, none, false⟩,
    ⟨"idle_db_connections", "The number of idle database connections",
      .intGauge, none, false⟩,
    ⟨"used_db_connections", "The number of used database connections",
      .intGauge, none, false⟩,
    ⟨"max_db_connections", "The maximum number of database connections",
      .intGauge, none, false⟩,
    ⟨"failed_db_connections",
      "Number of attempted and failed connections to the database",
      .intCounter, none, false⟩,
    ⟨"open_file_descriptors", "The number of currently opened file descriptors",
      .intGauge, none, true⟩,
    ⟨"running_threads", "The number of threads being used by docs.rs",
      .intGauge, none, true⟩,
    ⟨"routes_visited", "The traffic of various docs.rs routes",
      .intCounterVec, some "route", false⟩,
    ⟨"response_time", "The response times of various docs.rs routes",
      .histogramVec, some "route", false⟩,
    ⟨"rustdoc_rendering_times", "The time it takes to render a rustdoc page",
      .histogramVec, some "step", false⟩,
    ⟨"total_builds", "Number of crates built",
      .intCounter, none, false⟩,
    ⟨"successful_builds", "Number of builds that successfully generated docs",
      .intCounter, none, false⟩,
    ⟨"failed_builds", "Number of builds that generated a compiler error",
      .intCounter, none, false⟩,
    ⟨"non_library_builds",
      "Number of builds that did not complete due to not being a library",
      .intCounter, none, false⟩,
    ⟨"uploaded_files_total", "Number of files uploaded to the storage backend",
      .intCounter, none, false⟩,
    ⟨"html_rewrite_ooms",
      "The number of attempted files that failed due to a memory limit",
      .intCounter, none, false⟩ ]

/-- The shared namespace of the registry (`namespace: "docsrs"`). -/
def docsrs_namespace : String := "docsrs"

/-- How the prometheus backend joins the namespace and the declared
metric name: `a metric named foo with a prefix of docsrs will expose a
metric called docsrs_foo`. -/
def exported_name (ns name : String) : String := ns ++ "_" ++ name

/-- The current value of one metric family in a serialized snapshot. -/
inductive MetricValue where
  | gaugeVal (v : Int)
  | counterVal (v : Nat)
  | vecVal (series : List (String × Nat))
deriving DecidableEq, Repr

/-- One serialized metric family (`prometheus::proto::MetricFamily`):
exported name, help text, kind, and current value(s). -/
structure MetricFamily where
  name : String
  help : String
  kind : MetricKind
  value : MetricValue
deriving DecidableEq, Repr

/-- Modelled from the spec: the value the collection backend reads from
the live metric backing a descriptor when serializing a snapshot (the
`registry.gather()` call; the prometheus registry is not in the visible
source). -/
def metric_value (m : Metrics) (name : String) : MetricValue :=
  if name = "queued_crates_count" then .gaugeVal m.queued_crates_count
  else if name = "prioritized_crates_count" then .gaugeVal m.prioritized_crates_count
  else if name = "failed_crates_count" then .gaugeVal m.failed_crates_count
  else if name = "idle_db_connections" then .gaugeVal m.idle_db_connections
  else if name = "used_db_connections" then .gaugeVal m.used_db_connections
  else if name = "max_db_connections" then .gaugeVal m.max_db_connections
  else if name = "failed_db_connections" then .counterVal m.failed_db_connections
  else if name = "open_file_descriptors" then .gaugeVal m.open_file_descriptors
  else if name = "running_threads" then .gaugeVal m.running_threads
  else if name = "routes_visited" then .vecVal m.routes_visited
  else if name = "response_time" then .vecVal m.response_time
  else if name = "rustdoc_rendering_times" then .vecVal m.rustdoc_rendering_times
  else if name = "total_builds" then .counterVal m.total_builds
  else if name = "successful_builds" then .counterVal m.successful_builds
  else if name = "failed_builds" then .counterVal m.failed_builds
  else if name = "non_library_builds" then .counterVal m.non_library_builds
  else if name = "uploaded_files_total" then .counterVal m.uploaded_files_total
  else .counterVal m.html_rewrite_ooms

/-- Modelled from the spec: `registry.gather()` serializes every
registered metric (every schema entry whose platform predicate holds)
under its namespaced exported name, in declaration order, into a
snapshot. -/
def registry_gather (linux : Bool) (m : Metrics) : List MetricFamily :=
  (schema.filter (fun d => !d.linux_only || linux)).map
    (fun d => ⟨exported_name docsrs_namespace d.name, d.help, d.kind,
               metric_value m d.name⟩)

/-- Read one family's value from a snapshot by exported name. -/
def snap_read (s : List MetricFamily) (n : String) : Option MetricValue :=
  (s.find? (fun f => f.name == n)).map (fun f => f.value)

/-- `Metrics::gather_system_performance` under `cfg(target_os = "linux")`:
obtain the `Process` handle, set `open_file_descriptors` from
`process.fd().unwrap().len() as i64`, then set `running_threads` from
`process.stat().unwrap().num_threads as i64`.  Each `unwrap` of a failed
read panics, modelled by `none`. -/
def gather_system_performance_linux (pfs : ProcFS) (m : Metrics) : Option Metrics :=
  match pfs.myself with
  | .error _ => none
  | .ok process =>
    match process.fd with
    | .error _ => none
    | .ok fds =>
      let m1 := { m with open_file_descriptors := as_i64 fds.length }
      match process.stat with
      | .error _ => none
      | .ok st => some { m1 with running_threads := st.num_threads }

/-- `Metrics::gather_system_performance` under
`cfg(not(target_os = "linux"))`: an empty body. -/
def gather_system_performance_nonlinux (m : Metrics) : Metrics := m

/-- Outcome of a `gather` call: `Ok` with the serialized snapshot, `Err`
with the propagated error (the metrics state, which lives in the shared
registry, is carried so that its post-call contents can be observed), or
a panic (abnormal termination, no value returned to the caller). -/
inductive GatherOutcome where
  | ok (m : Metrics) (snap : List MetricFamily)
  | err (m : Metrics) (e : Error)
  | panic
deriving DecidableEq, Repr

/-- Whether a `GatherOutcome` is an `Err` return to the caller. -/
def GatherOutcome.isErrReturn : GatherOutcome → Bool
  | .err _ _ => true
  | _ => false

/-- Whether a `GatherOutcome` is an `Ok` return to the caller. -/
def GatherOutcome.isOkReturn : GatherOutcome → Bool
  | .ok _ _ => true
  | _ => false

/-- Whether a `GatherOutcome` is a panic. -/
def GatherOutcome.isPanic : GatherOutcome → Bool
  | .panic => true
  | _ => false

/-- `Metrics::gather` as compiled for Linux, translated statement by
statement: set the three pool gauges (infallible), set the three queue
gauges with `?` propagation on each read, run
`gather_system_performance`, and return `Ok(self.registry.gather())`. -/
def gather_linux (pfs : ProcFS) (pool : Pool) (queue : BuildQueue)
    (m : Metrics) : GatherOutcome :=
  let m1 := { m with idle_db_connections := as_i64 pool.idle_connections }
  let m2 := { m1 with used_db_connections := as_i64 pool.used_connections }
  let m3 := { m2 with max_db_connections := as_i64 pool.max_size }
  match queue.pending_count with
  | .error e => .err m3 e
  | .ok p =>
    let m4 := { m3 with queued_crates_count := as_i64 p }
    match queue.prioritized_count with
    | .error e => .err m4 e
    | .ok pr =>
      let m5 := { m4 with prioritized_crates_count := as_i64 pr }
      match queue.failed_count with
      | .error e => .err m5 e
      | .ok f =>
        let m6 := { m5 with failed_crates_count := as_i64 f }
        match gather_system_performance_linux pfs m6 with
        | none => .panic
        | some m7 => .ok m7 (registry_gather true m7)

/-- `Metrics::gather` as compiled for a non-Linux target: identical,
except that `gather_system_performance` is the empty body and the
platform-gated metrics are not registered. -/
def gather_nonlinux (pool : Pool) (queue : BuildQueue) (m : Metrics) :
    GatherOutcome :=
  let m1 := { m with idle_db_connections := as_i64 pool.idle_connections }
  let m2 := { m1 with used_db_connections := as_i64 pool.used_connections }
  let m3 := { m2 with max_db_connections := as_i64 pool.max_size }
  match queue.pending_count with
  | .error e => .err m3 e
  | .ok p =>
    let m4 := { m3 with queued_crates_count := as_i64 p }
    match queue.prioritized_count with
    | .error e => .err m4 e
    | .ok pr =>
      let m5 := { m4 with prioritized_crates_count := as_i64 pr }
      match queue.failed_count with
      | .error e => .err m5 e
      | .ok f =>
        let m6 := { m5 with failed_crates_count := as_i64 f }
        let m7 := gather_system_performance_nonlinux m6
        .ok m7 (registry_gather false m7)

/-- Spec step (1) of `gather`: set the three pool gauges. -/
def set_pool_gauges (pool : Pool) (m : Metrics) : Metrics :=
  { m with idle_db_connections := as_i64 pool.idle_connections,
           used_db_connections := as_i64 pool.used_connections,
           max_db_connections := as_i64 pool.max_size }

/-- Spec step (2) of `gather`: set the three queue gauges from
successfully read counts. -/
def set_queue_gauges (p pr f : Nat) (m : Metrics) : Metrics :=
  { m with queued_crates_count := as_i64 p,
           prioritized_crates_count := as_i64 pr,
           failed_crates_count := as_i64 f }

/-- Spec step (3) of `gather` on Linux with all reads succeeding: set the
two process gauges. -/
def set_sysperf_gauges (fds : List Nat) (st : Stat) (m : Metrics) : Metrics :=
  { m with open_file_descriptors := as_i64 fds.length,
           running_threads := st.num_threads }

/-- The single write of the `queued_crates_count` gauge. -/
def set_queued_gauge (p : Nat) (m : Metrics) : Metrics :=
  { m with queued_crates_count := as_i64 p }

/-- The single write of the `prioritized_crates_count` gauge. -/
def set_prioritized_gauge (pr : Nat) (m : Metrics) : Metrics :=
  { m with prioritized_crates_count := as_i64 pr }

/-- Modelled from the spec: one increment event of a counter adds its
non-negative amount (1 for `inc`, `n` for `inc_by`) to the cumulative
total; a counter exposes no other mutation. -/
def counter_apply_events (c : Nat) (events : List Nat) : Nat :=
  events.foldl (fun acc n => acc + n) c

/-- Look a label value up in a vector metric's series map. -/
def vec_get (v : List (String × Nat)) (l : String) : Option Nat :=
  match v with
  | [] => none
  | (k, n) :: rest => if k = l then some n else vec_get rest l

/-- Modelled from the spec: a vector counter observation under a label
value increments that label's series, creating the series with count 1
on first use of a previously-unseen label value; no series is ever
removed. -/
def vec_inc (v : List (String × Nat)) (l : String) : List (String × Nat) :=
  match v with
  | [] => [(l, 1)]
  | (k, n) :: rest => if k = l then (k, n + 1) :: rest else (k, n) :: vec_inc rest l

/-- Modelled from the spec: registering one name with the collection
backend, which rejects a name registered before. -/
def register_name (b : List String) (n : String) : RustResult (List String) :=
  if b.contains n then .error ⟨"duplicate metrics collector registration attempted"⟩
  else .ok (b ++ [n])

/-- Register a list of names in order, stopping at the first rejection. -/
def register_all (b : List String) (names : List String) : RustResult (List String) :=
  match names with
  | [] => .ok b
  | n :: rest =>
    match register_name b n with
    | .error e => .error e
    | .ok b2 => register_all b2 rest

/-- The exported names of every schema entry applicable on the given
platform, in declaration order. -/
def applicable_names (linux : Bool) : List String :=
  (schema.filter (fun d => !d.linux_only || linux)).map
    (fun d => exported_name docsrs_namespace d.name)

/-- Modelled from the spec: Registry construction materializes one live
metric per applicable descriptor and registers each with the backend
exactly once, propagating the first registration error. -/
def construct_registry (linux : Bool) (b : List String) : RustResult (List String) :=
  register_all b (applicable_names linux)

/-- A metrics state with every gauge and counter at its initial value
and every vector metric empty, as after Registry construction. -/
def init_metrics : Metrics :=
  ⟨0, 0, 0, 0, 0, 0, 0, 0, 0, [], [], [], 0, 0, 0, 0, 0, 0⟩

/-- Concrete pool state used by the end-to-end checks. -/
def pool0 : Pool := ⟨3, 7, 10⟩

/-- Concrete queue state with all three reads succeeding. -/
def queue_ok : BuildQueue := ⟨.ok 42, .ok 5, .ok 1⟩

/-- Concrete error value used by the failing-read fixtures. -/
def err0 : Error := ⟨"queue unavailable"⟩

/-- Queue whose `pending_count` read fails. -/
def queue_fail_pending : BuildQueue := ⟨.error err0, .ok 5, .ok 1⟩

/-- Queue whose `prioritized_count` read fails. -/
def queue_fail_prioritized : BuildQueue := ⟨.ok 42, .error err0, .ok 1⟩

/-- Queue whose `failed_count` read fails. -/
def queue_fail_failed : BuildQueue := ⟨.ok 42, .ok 5, .error err0⟩

/-- Concrete procfs state with all reads succeeding: four open file
descriptors, six threads. -/
def pfs_ok : ProcFS := ⟨.ok ⟨.ok [0, 1, 2, 3], .ok ⟨6⟩⟩⟩

/-- Concrete procfs state whose `fd()` read fails. -/
def pfs_fd_fail : ProcFS := ⟨.ok ⟨.error ⟨"fd read failed"⟩, .ok ⟨6⟩⟩⟩

lemma counter_apply_events_eq (c : Nat) (events : List Nat) :
    counter_apply_events c events = c + events.sum := by
  induction events generalizing c with
  | nil => simp [counter_apply_events]
  | cons n rest ih =>
    show counter_apply_events (c + n) rest = c + (n :: rest).sum
    rw [ih, List.sum_cons]
    omega

lemma vec_get_inc_fresh (v : List (String × Nat)) (l : String)
    (h : vec_get v l = none) : vec_get (vec_inc v l) l = some 1 := by
  induction v with
  | nil => simp [vec_inc, vec_get]
  | cons p rest ih =>
    obtain ⟨k, n⟩ := p
    by_cases hk : k = l
    · simp [vec_get, hk] at h
    · simp only [vec_get, vec_inc, hk, if_false] at h ⊢
      exact ih h

lemma vec_get_inc_seen (v : List (String × Nat)) (l : String) (n : Nat)
    (h : vec_get v l = some n) : vec_get (vec_inc v l) l = some (n + 1) := by
  induction v with
  | nil => simp [vec_get] at h
  | cons p rest ih =>
    obtain ⟨k, mval⟩ := p
    by_cases hk : k = l
    · simp only [vec_get, hk, if_true, Option.some.injEq] at h
      subst h
      simp [vec_inc, vec_get, hk]
    · simp only [vec_get, vec_inc, hk, if_false] at h ⊢
      exact ih h

lemma vec_get_inc_other (v : List (String × Nat)) (l l' : String)
    (h : l ≠ l') : vec_get (vec_inc v l') l = vec_get v l := by
  induction v with
  | nil =>
    simp only [vec_inc, vec_get]
    rw [if_neg (fun hc => h hc.symm)]
  | cons p rest ih =>
    obtain ⟨k, n⟩ := p
    by_cases hk : k = l'
    · subst hk
      simp only [vec_inc, if_pos rfl, vec_get]
      rw [if_neg (fun hc => h hc.symm), if_neg (fun hc => h hc.symm)]
    · simp only [vec_inc, if_neg hk, vec_get]
      by_cases hkl : k = l
      · simp [hkl]
      · simp only [hkl, if_false]
        exact ih

lemma vec_inc_preserves (v : List (String × Nat)) (l l' : String) (n : Nat)
    (h : vec_get v l = some n) : ∃ k, vec_get (vec_inc v l') l = some k := by
  by_cases hl : l = l'
  · subst hl
    exact ⟨n + 1, vec_get_inc_seen v l n h⟩
  · exact ⟨n, by rw [vec_get_inc_other v l l' hl]; exact h⟩

/-- Claim C1: if any one of the three queue reads fails, `gather` stops
at the first failing read, performs none of the remaining gather steps
(the later queue gauges, the system-performance refresh and the
serialization are untouched, as the returned state shows), and returns
that error with no Snapshot, regardless of the pool reads of step 1;
this holds for the Linux and the non-Linux compilation alike. -/
theorem C1_first_queue_failure_aborts (pfs : ProcFS) (pool : Pool)
    (queue : BuildQueue) (m : Metrics) :
    (∀ e, queue.pending_count = .error e →
      gather_linux pfs pool queue m = .err (set_pool_gauges pool m) e ∧
      gather_nonlinux pool queue m = .err (set_pool_gauges pool m) e) ∧
    (∀ p e, queue.pending_count = .ok p → queue.prioritized_count = .error e →
      gather_linux pfs pool queue m =
        .err (set_queued_gauge p (set_pool_gauges pool m)) e ∧
      gather_nonlinux pool queue m =
        .err (set_queued_gauge p (set_pool_gauges pool m)) e) ∧
    (∀ p pr e, queue.pending_count = .ok p → queue.prioritized_count = .ok pr →
      queue.failed_count = .error e →
      gather_linux pfs pool queue m =
        .err (set_prioritized_gauge pr (set_queued_gauge p (set_pool_gauges pool m))) e ∧
      gather_nonlinux pool queue m =
        .err (set_prioritized_gauge pr (set_queued_gauge p (set_pool_gauges pool m))) e) := by
  refine ⟨fun e h => ?_, fun p e hp h => ?_, fun p pr e hp hpr h => ?_⟩ <;>
    constructor <;>
    simp [gather_linux, gather_nonlinux, set_pool_gauges, set_queued_gauge,
          set_prioritized_gauge, *]

/-- Witness for C1 at a concrete state whose `pending_count` read
fails. -/
theorem C1_first_queue_failure_aborts_witness :
    gather_linux pfs_ok pool0 queue_fail_pending init_metrics =
      .err (set_pool_gauges pool0 init_metrics) err0 ∧
    gather_nonlinux pool0 queue_fail_pending init_metrics =
      .err (set_pool_gauges pool0 init_metrics) err0 :=
  (C1_first_queue_failure_aborts pfs_ok pool0 queue_fail_pending init_metrics).1 err0 rfl

/-- Claim C2, counterexample: with all three queue reads succeeding and
the `process.fd()` read failing, the source's `unwrap` in
`gather_system_performance` panics: the outcome is `.panic`, an
abnormal termination, and in particular not an `Err` return to the
caller, refuting the claim that a failed process-introspection read is
propagated as an error. -/
theorem C2_counterexample :
    gather_linux pfs_fd_fail pool0 queue_ok init_metrics = .panic ∧
    (gather_linux pfs_fd_fail pool0 queue_ok init_metrics).isErrReturn = false := by
  decide

/-- Claim C2 as amended: on Linux, when the three queue reads succeed
and the process-introspection read fails (the `Process` handle, the
`fd()` read or the `stat()` read), `gather` terminates abnormally by
panicking instead of returning the failure as an error to its
caller. -/
theorem C2_procfs_failure_panics (pfs : ProcFS) (pool : Pool)
    (queue : BuildQueue) (m : Metrics) (p pr f : Nat)
    (hp : queue.pending_count = .ok p)
    (hpr : queue.prioritized_count = .ok pr)
    (hf : queue.failed_count = .ok f)
    (hsys : ∀ m' : Metrics, gather_system_performance_linux pfs m' = none) :
    gather_linux pfs pool queue m = .panic := by
  simp [gather_linux, hp, hpr, hf, hsys]

/-- Witness for the amended C2 at a concrete state whose `fd()` read
fails. -/
theorem C2_procfs_failure_panics_witness :
    gather_linux pfs_fd_fail pool0 queue_ok init_metrics = .panic :=
  C2_procfs_failure_panics pfs_fd_fail pool0 queue_ok init_metrics 42 5 1 rfl rfl rfl
    (fun _ => rfl)

/-- Claim C3: a successful `gather` performs its steps in order — pool
gauges first, then queue gauges, then the platform-conditional process
gauges, and finally the backend serialization of every registered
metric into the returned Snapshot, computed from the fully refreshed
state. -/
theorem C3_gather_step_order (pfs : ProcFS) (pool : Pool) (queue : BuildQueue)
    (m : Metrics) (p pr f : Nat) (process : Process) (fds : List Nat) (st : Stat)
    (hp : queue.pending_count = .ok p)
    (hpr : queue.prioritized_count = .ok pr)
    (hf : queue.failed_count = .ok f)
    (hmy : pfs.myself = .ok process)
    (hfd : process.fd = .ok fds)
    (hst : process.stat = .ok st) :
    gather_linux pfs pool queue m =
      .ok (set_sysperf_gauges fds st
            (set_queue_gauges p pr f (set_pool_gauges pool m)))
          (registry_gather true
            (set_sysperf_gauges fds st
              (set_queue_gauges p pr f (set_pool_gauges pool m)))) := by
  simp [gather_linux, gather_system_performance_linux, hp, hpr, hf, hmy, hfd, hst,
        set_pool_gauges, set_queue_gauges, set_sysperf_gauges]

/-- Witness for C3 at concrete pool, queue and procfs states with all
reads succeeding. -/
theorem C3_gather_step_order_witness :
    gather_linux pfs_ok pool0 queue_ok init_metrics =
      .ok (set_sysperf_gauges [0, 1, 2, 3] ⟨6⟩
            (set_queue_gauges 42 5 1 (set_pool_gauges pool0 init_metrics)))
          (registry_gather true
            (set_sysperf_gauges [0, 1, 2, 3] ⟨6⟩
              (set_queue_gauges 42 5 1 (set_pool_gauges pool0 init_metrics)))) :=
  C3_gather_step_order pfs_ok pool0 queue_ok init_metrics 42 5 1
    ⟨.ok [0, 1, 2, 3], .ok ⟨6⟩⟩ [0, 1, 2, 3] ⟨6⟩ rfl rfl rfl rfl rfl rfl

/-- Claim C4: a gauge set to `v` and read via the Snapshot reports
exactly `v` with no transformation (stated for each of the six gauges
refreshed by `gather`), and the end-to-end run with pool state
(idle=3, used=7, max=10) and queue state (pending=42, prioritized=5,
failed=1) yields a Snapshot whose six gauges read exactly
3, 7, 10, 42, 5, 1. -/
theorem C4_gauge_exact_roundtrip :
    (∀ (m : Metrics) (v : Int),
      snap_read (registry_gather true { m with queued_crates_count := v })
        (exported_name docsrs_namespace "queued_crates_count") = some (.gaugeVal v)) ∧
    (∀ (m : Metrics) (v : Int),
      snap_read (registry_gather true { m with prioritized_crates_count := v })
        (exported_name docsrs_namespace "prioritized_crates_count") = some (.gaugeVal v)) ∧
    (∀ (m : Metrics) (v : Int),
      snap_read (registry_gather true { m with failed_crates_count := v })
        (exported_name docsrs_namespace "failed_crates_count") = some (.gaugeVal v)) ∧
    (∀ (m : Metrics) (v : Int),
      snap_read (registry_gather true { m with idle_db_connections := v })
        (exported_name docsrs_namespace "idle_db_connections") = some (.gaugeVal v)) ∧
    (∀ (m : Metrics) (v : Int),
      snap_read (registry_gather true { m with used_db_connections := v })
        (exported_name docsrs_namespace "used_db_connections") = some (.gaugeVal v)) ∧
    (∀ (m : Metrics) (v : Int),
      snap_read (registry_gather true { m with max_db_connections := v })
        (exported_name docsrs_namespace "max_db_connections") = some (.gaugeVal v)) ∧
    (∃ mfin snap, gather_linux pfs_ok pool0 queue_ok init_metrics = .ok mfin snap ∧
      snap_read snap "docsrs_idle_db_connections" = some (.gaugeVal 3) ∧
      snap_read snap "docsrs_used_db_connections" = some (.gaugeVal 7) ∧
      snap_read snap "docsrs_max_db_connections" = some (.gaugeVal 10) ∧
      snap_read snap "docsrs_queued_crates_count" = some (.gaugeVal 42) ∧
      snap_read snap "docsrs_prioritized_crates_count" = some (.gaugeVal 5) ∧
      snap_read snap "docsrs_failed_crates_count" = some (.gaugeVal 1)) := by
  refine ⟨fun m v => rfl, fun m v => rfl, fun m v => rfl, fun m v => rfl,
          fun m v => rfl, fun m v => rfl,
          ⟨_, _, rfl, ?_, ?_, ?_, ?_, ?_, ?_⟩⟩ <;> decide

/-- Claim C5: Registry construction registers each applicable metric
with the backend exactly once (the resulting backend holds precisely
the duplicate-free list of exported names, in declaration order), and
constructing a second Registry against the same backend instance fails
with a duplicate-registration error, on either platform. -/
theorem C5_registration_exactly_once :
    construct_registry true [] = .ok (applicable_names true) ∧
    (applicable_names true).Nodup ∧
    construct_registry true (applicable_names true) =
      .error ⟨"duplicate metrics collector registration attempted"⟩ ∧
    construct_registry false [] = .ok (applicable_names false) ∧
    (applicable_names false).Nodup ∧
    construct_registry false (applicable_names false) =
      .error ⟨"duplicate metrics collector registration attempted"⟩ := by
  refine ⟨by decide, by decide, by decide, by decide, by decide, by decide⟩

/-- Claim C6: every metric family of a Snapshot is exported under the
name formed by joining the namespace and the declared name with an
underscore, i.e. "docsrs_" followed by the declared name of some schema
entry. -/
theorem C6_exported_names (linux : Bool) (m : Metrics) (fam : MetricFamily)
    (hmem : fam ∈ registry_gather linux m) :
    ∃ d ∈ schema, fam.name = "docsrs_" ++ d.name := by
  simp only [registry_gather, List.mem_map, List.mem_filter] at hmem
  obtain ⟨d, ⟨hd, _⟩, rfl⟩ := hmem
  exact ⟨d, hd, rfl⟩

/-- Witness for C6 at a concrete family of a concrete Snapshot. -/
theorem C6_exported_names_witness :
    ∃ d ∈ schema,
      (MetricFamily.mk "docsrs_total_builds" "Number of crates built"
        .intCounter (.counterVal 0)).name = "docsrs_" ++ d.name :=
  C6_exported_names true init_metrics
    ⟨"docsrs_total_builds", "Number of crates built", .intCounter, .counterVal 0⟩
    (by decide)

/-- Claim C7: a counter reports the exact cumulative sum of the
increment events applied since construction (initial value 0), its
value is monotonically non-decreasing under every sequence of
operations, and reading a counter via the Snapshot reports exactly the
live cumulative value — stated for every one of the seven counter
metrics declared in the schema. -/
theorem C7_counter_cumulative_sum :
    (∀ events : List Nat, counter_apply_events 0 events = events.sum) ∧
    (∀ (c : Nat) (events : List Nat), c ≤ counter_apply_events c events) ∧
    (∀ m : Metrics, snap_read (registry_gather true m)
      (exported_name docsrs_namespace "failed_db_connections") =
        some (.counterVal m.failed_db_connections)) ∧
    (∀ m : Metrics, snap_read (registry_gather true m)
      (exported_name docsrs_namespace "total_builds") =
        some (.counterVal m.total_builds)) ∧
    (∀ m : Metrics, snap_read (registry_gather true m)
      (exported_name docsrs_namespace "successful_builds") =
        some (.counterVal m.successful_builds)) ∧
    (∀ m : Metrics, snap_read (registry_gather true m)
      (exported_name docsrs_namespace "failed_builds") =
        some (.counterVal m.failed_builds)) ∧
    (∀ m : Metrics, snap_read (registry_gather true m)
      (exported_name docsrs_namespace "non_library_builds") =
        some (.counterVal m.non_library_builds)) ∧
    (∀ m : Metrics, snap_read (registry_gather true m)
      (exported_name docsrs_namespace "uploaded_files_total") =
        some (.counterVal m.uploaded_files_total)) ∧
    (∀ m : Metrics, snap_read (registry_gather true m)
      (exported_name docsrs_namespace "html_rewrite_ooms") =
        some (.counterVal m.html_rewrite_ooms)) := by
  refine ⟨fun events => ?_, fun c events => ?_, fun m => rfl, fun m => rfl,
          fun m => rfl, fun m => rfl, fun m => rfl, fun m => rfl, fun m => rfl⟩ <;>
    rw [counter_apply_events_eq] <;> omega

/-- Claim C8: a vector counter observation under a previously-unseen
label value "foo" creates a series reporting 1, a second observation
under "foo" reports 2, an observation under "bar" leaves "foo"
unchanged, and an existing series survives every observation (never
removed). -/
theorem C8_vec_counter_series (v : List (String × Nat))
    (hfoo : vec_get v "foo" = none) :
    vec_get (vec_inc v "foo") "foo" = some 1 ∧
    vec_get (vec_inc (vec_inc v "foo") "foo") "foo" = some 2 ∧
    vec_get (vec_inc (vec_inc v "foo") "bar") "foo" = some 1 ∧
    (∀ (l l' : String) (n : Nat), vec_get v l = some n →
      ∃ k, vec_get (vec_inc v l') l = some k) := by
  have h1 := vec_get_inc_fresh v "foo" hfoo
  refine ⟨h1, vec_get_inc_seen _ _ _ h1, ?_,
          fun l l' n h => vec_inc_preserves v l l' n h⟩
  rw [vec_get_inc_other _ _ _ (by decide)]
  exact h1

/-- Witness for C8 at the empty series map. -/
theorem C8_vec_counter_series_witness :
    vec_get (vec_inc ([] : List (String × Nat)) "foo") "foo" = some 1 :=
  (C8_vec_counter_series [] rfl).1

/-- Claim C9: `gather` is not atomic on failure — when a queue read
fails, the gauges already written earlier in the same call (the three
pool gauges, and any queue gauge set before the failing read) retain
their newly written values in the state carried by the error outcome;
nothing is rolled back. -/
theorem C9_no_rollback_on_error (pfs : ProcFS) (pool : Pool)
    (queue : BuildQueue) (m : Metrics) :
    (∀ e, queue.pending_count = .error e →
      ∃ m', gather_linux pfs pool queue m = .err m' e ∧
        m'.idle_db_connections = as_i64 pool.idle_connections ∧
        m'.used_db_connections = as_i64 pool.used_connections ∧
        m'.max_db_connections = as_i64 pool.max_size) ∧
    (∀ p e, queue.pending_count = .ok p → queue.prioritized_count = .error e →
      ∃ m', gather_linux pfs pool queue m = .err m' e ∧
        m'.idle_db_connections = as_i64 pool.idle_connections ∧
        m'.used_db_connections = as_i64 pool.used_connections ∧
        m'.max_db_connections = as_i64 pool.max_size ∧
        m'.queued_crates_count = as_i64 p) ∧
    (∀ p pr e, queue.pending_count = .ok p → queue.prioritized_count = .ok pr →
      queue.failed_count = .error e →
      ∃ m', gather_linux pfs pool queue m = .err m' e ∧
        m'.idle_db_connections = as_i64 pool.idle_connections ∧
        m'.used_db_connections = as_i64 pool.used_connections ∧
        m'.max_db_connections = as_i64 pool.max_size ∧
        m'.queued_crates_count = as_i64 p ∧
        m'.prioritized_crates_count = as_i64 pr) := by
  refine ⟨fun e h => ?_, fun p e hp h => ?_, fun p pr e hp hpr h => ?_⟩
  · exact ⟨set_pool_gauges pool m,
      by simp [gather_linux, set_pool_gauges, h], rfl, rfl, rfl⟩
  · exact ⟨set_queued_gauge p (set_pool_gauges pool m),
      by simp [gather_linux, set_pool_gauges, set_queued_gauge, hp, h],
      rfl, rfl, rfl, rfl⟩
  · exact ⟨set_prioritized_gauge pr (set_queued_gauge p (set_pool_gauges pool m)),
      by simp [gather_linux, set_pool_gauges, set_queued_gauge,
               set_prioritized_gauge, hp, hpr, h],
      rfl, rfl, rfl, rfl, rfl⟩

/-- Witness for C9 at a concrete state whose `failed_count` read fails:
the pool gauges and the two queue gauges written before the failure
keep their new values. -/
theorem C9_no_rollback_on_error_witness :
    ∃ m', gather_linux pfs_ok pool0 queue_fail_failed init_metrics = .err m' err0 ∧
      m'.idle_db_connections = as_i64 pool0.idle_connections ∧
      m'.used_db_connections = as_i64 pool0.used_connections ∧
      m'.max_db_connections = as_i64 pool0.max_size ∧
      m'.queued_crates_count = as_i64 42 ∧
      m'.prioritized_crates_count = as_i64 5 :=
  (C9_no_rollback_on_error pfs_ok pool0 queue_fail_failed init_metrics).2.2
    42 5 err0 rfl rfl rfl

/-- Claim C10: on a non-Linux platform the system-performance refresh
is a no-op that modifies no metric and cannot fail: `gather` never
panics there, and it returns a Snapshot exactly when all three queue
reads succeed — its success or failure depends only on the queue reads
and the final serialization. -/
theorem C10_nonlinux_sysperf_noop :
    (∀ m : Metrics, gather_system_performance_nonlinux m = m) ∧
    (∀ (pool : Pool) (queue : BuildQueue) (m : Metrics),
      (gather_nonlinux pool queue m).isPanic = false) ∧
    (∀ (pool : Pool) (queue : BuildQueue) (m : Metrics),
      (gather_nonlinux pool queue m).isOkReturn =
        (queue.pending_count.isOk && queue.prioritized_count.isOk &&
         queue.failed_count.isOk)) := by
  refine ⟨fun m => rfl, ?_, ?_⟩ <;> intro pool queue m <;>
    rcases hq1 : queue.pending_count <;> rcases hq2 : queue.prioritized_count <;>
    rcases hq3 : queue.failed_count <;>
    simp [gather_nonlinux, gather_system_performance_nonlinux, hq1, hq2, hq3,
          GatherOutcome.isPanic, GatherOutcome.isOkReturn, RustResult.isOk]

end DocsrsMetrics
